import Mathlib

/-!
Shallow embedding of the two scripts of the ebook-reader repository:
`src/test-agent.py` (the agent tester) and
`src/backend/create-opensearch-index.py` (the index provisioner).

External effects are made explicit: writes to standard output become a
list of written strings (python `print(x)` writes `x ++ "\n"`, and
`print(x, end='')` writes `x`), the streamed response of the agent
runtime becomes a list of stream items, and an exception raised by the
SDK becomes an `Except` value or a `raise` stream item.
-/

namespace EbookReader

/-! ## Agent tester: data model of the response stream (src/test-agent.py) -/

/-- A `chunk` dict of a stream event.  The code reads `chunk['bytes']`
and decodes it as UTF-8; we model the decoded text directly, and the
possible absence of the `bytes` key as `none`. -/
structure Chunk where
  bytesText : Option String
deriving Repr, DecidableEq

/-- One event of the `response['completion']` stream.  The `chunk` key
may be absent (`none`). -/
structure AgentEvent where
  chunk : Option Chunk
deriving Repr, DecidableEq

/-- One item pulled from the lazy stream: either a delivered event, or
an exception raised while consuming the stream. -/
inductive StreamItem where
  | event : AgentEvent → StreamItem
  | raise : String → StreamItem
deriving Repr, DecidableEq

/-- A stream item carrying a decoded text payload `t`. -/
def mkTextItem (t : String) : StreamItem :=
  StreamItem.event ⟨some ⟨some t⟩⟩

/-- Result of running the `for event in response['completion']` loop of
`test_agent`: the incremental writes to standard output in order, the
accumulated `completion` string, and the exception (if any) that ended
the loop early. -/
structure StreamRun where
  fragWrites : List String
  completion : String
  errorMsg : Option String
deriving Repr, DecidableEq

/-- The event loop of `test_agent` (src/test-agent.py lines 23-29):
for each event, if it has a `chunk` key and the chunk has a `bytes`
key, decode the text, append it to the accumulator and write it
immediately (`print(text, end='', flush=True)`); otherwise skip the
event.  A `raise` item aborts the loop with the exception. -/
def consumeStream : List StreamItem → String → List String → StreamRun
  | [], acc, ws => ⟨ws, acc, none⟩
  | StreamItem.raise e :: _, acc, ws => ⟨ws, acc, some e⟩
  | StreamItem.event ev :: rest, acc, ws =>
      match ev.chunk with
      | some c =>
          match c.bytesText with
          | some t => consumeStream rest (acc ++ t) (ws ++ [t])
          | none => consumeStream rest acc ws
      | none => consumeStream rest acc ws

/-- The keyword arguments `test_agent` passes to
`client.invoke_agent` (src/test-agent.py lines 13-18). -/
structure InvokeParams where
  agentId : String
  agentAliasId : String
  sessionId : String
  inputText : String
deriving Repr, DecidableEq

/-- The parameters built by `test_agent` for `invoke_agent`: the agent
id, the alias id, the fixed literal session id, and the question. -/
def invokeParamsOf (agent_id alias_id question : String) : InvokeParams :=
  { agentId := agent_id
    agentAliasId := alias_id
    sessionId := "test-session-123"
    inputText := question }

/-- Observable result of a run of the agent tester: the ordered writes
to standard output, the exit status of the process, and the parameters
of the `invoke_agent` call when one was issued (`none` when the agent
was never invoked). -/
structure RunResult where
  output : List String
  exitCode : Nat
  invoked : Option InvokeParams
deriving Repr, DecidableEq

/-- The `test_agent` function of src/test-agent.py.  `invokeResult` is
the outcome of `client.invoke_agent`: an exception message, or the
stream of items behind `response['completion']`.  The function prints
the two header lines, invokes the agent, prints `Response:`, runs the
event loop, and prints a blank line; any exception lands in the
`except` branch, which prints `Error: {e}` and exits with status 1. -/
def test_agent (agent_id alias_id question : String)
    (invokeResult : Except String (List StreamItem)) : RunResult :=
  let header : List String :=
    ["Testing Agent...\n", "Question: " ++ question ++ "\n\n"]
  let params := invokeParamsOf agent_id alias_id question
  match invokeResult with
  | Except.error e =>
      ⟨header ++ ["Error: " ++ e ++ "\n"], 1, some params⟩
  | Except.ok items =>
      let run := consumeStream items "" []
      match run.errorMsg with
      | some e =>
          ⟨header ++ ("Response:\n" :: run.fragWrites) ++ ["Error: " ++ e ++ "\n"],
           1, some params⟩
      | none =>
          ⟨header ++ ("Response:\n" :: run.fragWrites) ++ ["\n\n"],
           0, some params⟩

/-- The usage message printed by the `__main__` block. -/
def usageMsg : String :=
  "Usage: python3 test-agent.py <agent-id> <alias-id> [question]\n"

/-- The `__main__` block of src/test-agent.py.  `argv` is the full
`sys.argv`, program name included: with `len(sys.argv) < 3` the script
prints the usage message and exits with status 1 before any client is
constructed; otherwise it reads the agent id, the alias id, and the
question (defaulting to the fixed fallback) and calls `test_agent`. -/
def mainArgv (argv : List String)
    (invokeResult : Except String (List StreamItem)) : RunResult :=
  match argv with
  | _prog :: agent_id :: alias_id :: rest =>
      test_agent agent_id alias_id
        (match rest with
         | q :: _ => q
         | [] => "What is a derivative?")
        invokeResult
  | _ => ⟨[usageMsg], 1, none⟩

/-- Concatenation of a list of strings in order. -/
def concatAll : List String → String
  | [] => ""
  | s :: ss => s ++ concatAll ss

/-! ## Index provisioner (src/backend/create-opensearch-index.py) -/

/-- `pat` matches at the front of `s` (character lists). -/
def startsWithL : List Char → List Char → Bool
  | [], _ => true
  | _ :: _, [] => false
  | p :: ps, c :: cs => p == c && startsWithL ps cs

/-- `pat` occurs somewhere in `s` (character lists); the semantics of
the python containment test `pat in s`. -/
def occursIn (pat : List Char) : List Char → Bool
  | [] => startsWithL pat []
  | c :: rest => startsWithL pat (c :: rest) || occursIn pat rest

/-- Worker for `removeAll`, structurally recursive on a fuel bound:
with enough fuel (at least the length of `s`) it scans `s` left to
right, skips past each match of `pat`, and drops every match. -/
def removeAllGo (pat : List Char) : Nat → List Char → List Char
  | _, [] => []
  | 0, s => s
  | fuel + 1, c :: rest =>
      if startsWithL pat (c :: rest) && pat.length > 0 then
        removeAllGo pat fuel (rest.drop (pat.length - 1))
      else
        c :: removeAllGo pat fuel rest

/-- Remove every occurrence of `pat` from `s`, scanning left to right
and skipping past each match; the semantics of the python call
`s.replace(pat, '')` for a nonempty `pat`. -/
def removeAll (pat s : List Char) : List Char :=
  removeAllGo pat s.length s

/-- The python containment test `pat in s` on strings. -/
def pyIn (pat s : String) : Bool :=
  occursIn pat.toList s.toList

/-- The region constant of the provisioner. -/
def REGION : String := "eu-west-1"

/-- The collection name constant of the provisioner. -/
def COLLECTION_NAME : String := "quickbook-vectors"

/-- The index name constant of the provisioner. -/
def INDEX_NAME : String := "textbook-index"

/-- `host = endpoint.replace('https://', '')` (line 14 of the
provisioner): every occurrence of the scheme string is removed. -/
def hostOf (endpoint : String) : String :=
  String.mk (removeAll "https://".toList endpoint.toList)

/-- One element of the `collectionDetails` list returned by
`batch_get_collection`; the `collectionEndpoint` key may be absent. -/
structure CollectionDetail where
  collectionEndpoint : Option String
deriving Repr, DecidableEq

/-- The endpoint extraction
`response['collectionDetails'][0]['collectionEndpoint']` (line 13):
indexing an empty list raises `IndexError`, and a missing key raises
`KeyError`; both are modelled as `Except.error`. -/
def provisionEndpointStep (details : List CollectionDetail) : Except String String :=
  match details with
  | [] => Except.error "IndexError: list index out of range"
  | d :: _ =>
      match d.collectionEndpoint with
      | none => Except.error "KeyError: collectionEndpoint"
      | some e => Except.ok e

/-- A JSON value, as built by the python dict literal of the request
body. -/
inductive Json where
  | str : String → Json
  | num : Int → Json
  | bool : Bool → Json
  | obj : List (String × Json) → Json

/-- Look up a key in the fields of a JSON object. -/
def lookupField : List (String × Json) → String → Option Json
  | [], _ => none
  | (k, v) :: rest, key => if k == key then some v else lookupField rest key

/-- Look up one key in a JSON value (objects only). -/
def Json.getKey : Json → String → Option Json
  | Json.obj fs, k => lookupField fs k
  | _, _ => none

/-- Follow a path of keys through nested JSON objects. -/
def Json.getPath : Json → List String → Option Json
  | j, [] => some j
  | j, k :: ks =>
      match j.getKey k with
      | some v => Json.getPath v ks
      | none => none

/-- The `index_body` literal of the provisioner (lines 32-53),
transcribed field for field. -/
def index_body : Json :=
  Json.obj
    [("settings", Json.obj [("index.knn", Json.bool true)]),
     ("mappings", Json.obj
       [("properties", Json.obj
         [("embedding", Json.obj
           [("type", Json.str "knn_vector"),
            ("dimension", Json.num 1536),
            ("method", Json.obj
              [("engine", Json.str "faiss"),
               ("name", Json.str "hnsw")])]),
          ("content", Json.obj [("type", Json.str "text")]),
          ("metadata", Json.obj [("type", Json.str "object")])])])]

/-- The arguments of the call `client.indices.create(INDEX_NAME,
body=index_body)` (line 56): target index name and request body. -/
def createRequest : String × Json := (INDEX_NAME, index_body)

/-- Outcome of the `indices.create` call: a response (abstracted to
its printed rendering) or an exception with its string
representation. -/
inductive CreateOutcome where
  | ok : String → CreateOutcome
  | err : String → CreateOutcome

/-- Observable result of the provisioner run: the writes to standard
output, and the exception (if any) that propagated out of the script
uncaught, making the process exit nonzero. -/
structure ProvisionResult where
  output : List String
  uncaught : Option String
deriving Repr, DecidableEq

/-- The try/except around `indices.create` (lines 55-65): on success
print the success message and the response; on an exception whose
string representation contains `resource_already_exists_exception`,
print the already-exists message and continue (exception swallowed);
on any other exception print the error and re-raise it. -/
def handleCreateOutcome (o : CreateOutcome) : ProvisionResult :=
  match o with
  | CreateOutcome.ok resp =>
      ⟨["✅ Index \x27textbook-index\x27 created successfully!\n", resp ++ "\n"], none⟩
  | CreateOutcome.err e =>
      if pyIn "resource_already_exists_exception" e then
        ⟨["✅ Index \x27textbook-index\x27 already exists\n"], none⟩
      else
        ⟨["❌ Error: " ++ e ++ "\n"], some e⟩

/-- The whole provisioner script: extract the endpoint (an uncaught
exception there ends the run before anything is printed), derive the
host, print the endpoint line, issue the create call against that host
and classify its outcome.  `outcomeAt` gives the outcome of the create
call as a function of the host the client was built for. -/
def provisionerRun (details : List CollectionDetail)
    (outcomeAt : String → CreateOutcome) : ProvisionResult :=
  match provisionEndpointStep details with
  | Except.error e => ⟨[], some e⟩
  | Except.ok endpoint =>
      let host := hostOf endpoint
      let r := handleCreateOutcome (outcomeAt host)
      ⟨("Collection endpoint: " ++ endpoint ++ "\n") :: r.output, r.uncaught⟩

/-- Modelled from the spec: the spec describes the host computation as
stripping the scheme prefix from the front of the endpoint and leaving
the remainder of the string unchanged. -/
def stripScheme (e : String) : String :=
  if startsWithL "https://".toList e.toList then String.mk (e.toList.drop 8) else e

/-- The example stream of the spec: three text fragments. -/
def exampleStream : List StreamItem :=
  [mkTextItem "The ", mkTextItem "derivative ", mkTextItem "is..."]

/-! ## Helper lemmas -/

/-- Running the event loop over a stream of pure text fragments writes
each fragment in order and appends each fragment to the accumulator. -/
theorem consume_text_stream (ts : List String) : ∀ (acc : String) (ws : List String),
    consumeStream (ts.map mkTextItem) acc ws = ⟨ws ++ ts, acc ++ concatAll ts, none⟩ := by
  induction ts with
  | nil => intro acc ws; simp [consumeStream, concatAll]
  | cons t ts ih =>
      intro acc ws
      show consumeStream (mkTextItem t :: ts.map mkTextItem) acc ws = _
      rw [show consumeStream (mkTextItem t :: ts.map mkTextItem) acc ws =
            consumeStream (ts.map mkTextItem) (acc ++ t) (ws ++ [t]) from rfl]
      rw [ih (acc ++ t) (ws ++ [t])]
      simp [concatAll, String.append_assoc]

/-- A `raise` item after any block of plain events surfaces its
exception from the event loop. -/
theorem consume_raise_errorMsg (e : String) (post : List StreamItem) (pre : List AgentEvent) :
    ∀ (acc : String) (ws : List String),
    (consumeStream (pre.map StreamItem.event ++ StreamItem.raise e :: post) acc ws).errorMsg
      = some e := by
  induction pre with
  | nil => intro acc ws; rfl
  | cons ev pre ih =>
      intro acc ws
      obtain ⟨ch⟩ := ev
      cases ch with
      | none => exact ih acc ws
      | some c =>
          obtain ⟨bt⟩ := c
          cases bt with
          | none => exact ih acc ws
          | some t => exact ih (acc ++ t) (ws ++ [t])

/-- Whenever `test_agent` runs, the `invoke_agent` call is issued with
the parameters built from its three string arguments. -/
theorem test_agent_invoked (a b q : String) (inv : Except String (List StreamItem)) :
    (test_agent a b q inv).invoked = some (invokeParamsOf a b q) := by
  cases inv with
  | error e => rfl
  | ok items =>
      unfold test_agent
      cases h : (consumeStream items "" []).errorMsg <;> simp [h]

/-- When the event loop ends in an exception, `test_agent` prints the
header, the response marker, the fragments written so far, and the
error line, and exits with status 1. -/
theorem test_agent_stream_error (a b q : String) (items : List StreamItem) (e : String)
    (h : (consumeStream items "" []).errorMsg = some e) :
    (test_agent a b q (Except.ok items)).exitCode = 1 ∧
    (test_agent a b q (Except.ok items)).output =
      ["Testing Agent...\n", "Question: " ++ q ++ "\n\n", "Response:\n"] ++
        (consumeStream items "" []).fragWrites ++ ["Error: " ++ e ++ "\n"] := by
  simp only [test_agent]
  rw [h]
  exact ⟨rfl, by simp⟩

/-- With enough or little fuel alike, the scan leaves a string with no
occurrence of the pattern unchanged. -/
theorem removeAllGo_of_not_occursIn (pat : List Char) (fuel : Nat) :
    ∀ s : List Char, occursIn pat s = false → removeAllGo pat fuel s = s := by
  induction fuel with
  | zero => intro s _; cases s <;> rfl
  | succ fuel ih =>
      intro s h
      cases s with
      | nil => rfl
      | cons c rest =>
          simp only [occursIn, Bool.or_eq_false_iff] at h
          simp only [removeAllGo, h.1, Bool.false_and, if_neg, Bool.false_eq_true,
            not_false_eq_true]
          rw [ih rest h.2]

/-- A successful front match decomposes the string as the pattern
followed by the rest. -/
theorem startsWithL_eq_append (pat : List Char) :
    ∀ s : List Char, startsWithL pat s = true → s = pat ++ s.drop pat.length := by
  induction pat with
  | nil => intro s _; simp
  | cons p ps ih =>
      intro s h
      cases s with
      | nil => exact absurd h (by simp [startsWithL])
      | cons c cs =>
          simp only [startsWithL, Bool.and_eq_true, beq_iff_eq] at h
          have htail := ih cs h.2
          simp only [List.length_cons, List.drop_succ_cons, List.cons_append,
            List.cons.injEq]
          exact ⟨h.1.symm, htail⟩

/-- When a nonempty pattern matches at the front and occurs nowhere in
the remainder, removing all occurrences strips exactly the front
match. -/
theorem removeAll_leading (pat : List Char) (hp : 0 < pat.length) (s : List Char)
    (hs : startsWithL pat s = true)
    (hocc : occursIn pat (s.drop pat.length) = false) :
    removeAll pat s = s.drop pat.length := by
  cases pat with
  | nil => simp at hp
  | cons p ps =>
      cases s with
      | nil => exact absurd hs (by simp [startsWithL])
      | cons c cs =>
          show removeAllGo (p :: ps) (c :: cs).length (c :: cs) = _
          simp only [List.length_cons]
          rw [show removeAllGo (p :: ps) (cs.length + 1) (c :: cs) =
                if startsWithL (p :: ps) (c :: cs) && (p :: ps).length > 0 then
                  removeAllGo (p :: ps) cs.length (cs.drop ((p :: ps).length - 1))
                else c :: removeAllGo (p :: ps) cs.length cs from rfl]
          rw [if_pos (by simp [hs])]
          simp only [List.length_cons, Nat.add_sub_cancel]
          simp only [List.length_cons, List.drop_succ_cons] at hocc
          rw [List.drop_succ_cons]
          exact removeAllGo_of_not_occursIn _ _ _ hocc

/-! ## Claim theorems -/

/-- C1 (counterexample): on the example stream the accumulated string
is "The derivative is...", but after exhausting the sequence the agent
tester only prints a blank line (`print("\n")`): the fully accumulated
text is never written to standard output as a whole, so the tester
does not print the accumulated text after the stream ends. -/
theorem agent_tester_no_final_accumulated_print :
    (consumeStream exampleStream "" []).completion = "The derivative is..." ∧
    (test_agent "AGENT" "ALIAS" "Q" (Except.ok exampleStream)).output =
      ["Testing Agent...\n", "Question: Q\n\n", "Response:\n",
       "The ", "derivative ", "is...", "\n\n"] ∧
    ((test_agent "AGENT" "ALIAS" "Q" (Except.ok exampleStream)).output.contains
      "The derivative is...") = false :=
  ⟨by decide, by decide, by decide⟩

/-- C1 (amended): for every finite stream of text fragments, the agent
tester writes each fragment to standard output immediately and in
stream order, and accumulates the decoded fragments into one string in
stream order, so that the accumulated string is the concatenation of
the emitted fragments; after exhausting the sequence it prints a blank
line (not the accumulated text) and the run succeeds; for the fragment
stream ["The ", "derivative ", "is..."] the accumulated string is
"The derivative is...". -/
theorem agent_tester_incremental_stream (a b q : String) (ts : List String) :
    consumeStream (ts.map mkTextItem) "" [] = ⟨ts, concatAll ts, none⟩ ∧
    (test_agent a b q (Except.ok (ts.map mkTextItem))).output =
      ["Testing Agent...\n", "Question: " ++ q ++ "\n\n", "Response:\n"] ++
        ts ++ ["\n\n"] ∧
    (test_agent a b q (Except.ok (ts.map mkTextItem))).exitCode = 0 ∧
    concatAll ["The ", "derivative ", "is..."] = "The derivative is..." := by
  have hc := consume_text_stream ts "" []
  simp only [List.nil_append, String.empty_append] at hc
  refine ⟨hc, ?_, ?_, by decide⟩
  · simp only [test_agent]
    rw [hc]
    simp
  · simp only [test_agent]
    rw [hc]

/-- C2: the provisioner classifies the outcome of the index-creation
call: success reports success; a failure whose string representation
contains the already-exists indication reports success and swallows
the exception; any other failure prints the error and re-raises it, so
it propagates out of the script. -/
theorem provisioner_outcome_classification (r e1 e2 : String)
    (h1 : pyIn "resource_already_exists_exception" e1 = true)
    (h2 : pyIn "resource_already_exists_exception" e2 = false) :
    handleCreateOutcome (CreateOutcome.ok r) =
      ⟨["✅ Index \x27textbook-index\x27 created successfully!\n", r ++ "\n"], none⟩ ∧
    handleCreateOutcome (CreateOutcome.err e1) =
      ⟨["✅ Index \x27textbook-index\x27 already exists\n"], none⟩ ∧
    handleCreateOutcome (CreateOutcome.err e2) =
      ⟨["❌ Error: " ++ e2 ++ "\n"], some e2⟩ := by
  refine ⟨rfl, ?_, ?_⟩ <;> simp [handleCreateOutcome, h1, h2]

/-- C2 (witness): concrete instances of the three outcomes. -/
theorem provisioner_outcome_classification_witness :
    handleCreateOutcome (CreateOutcome.ok "{}") =
      ⟨["✅ Index \x27textbook-index\x27 created successfully!\n", "{}" ++ "\n"], none⟩ ∧
    handleCreateOutcome
        (CreateOutcome.err "RequestError(400, resource_already_exists_exception)") =
      ⟨["✅ Index \x27textbook-index\x27 already exists\n"], none⟩ ∧
    handleCreateOutcome (CreateOutcome.err "ConnectionTimeout") =
      ⟨["❌ Error: " ++ "ConnectionTimeout" ++ "\n"], some "ConnectionTimeout"⟩ :=
  provisioner_outcome_classification "{}"
    "RequestError(400, resource_already_exists_exception)" "ConnectionTimeout"
    (by decide) (by decide)

/-- C3: the create call targets the fixed index name and sends exactly
the fixed literal body: a knn vector field of dimension 1536 using the
HNSW method on the FAISS engine, a plain text field, an open-ended
metadata object field, and index.knn enabled in the settings. -/
theorem create_request_schema :
    createRequest = ("textbook-index", index_body) ∧
    index_body.getPath ["settings", "index.knn"] = some (Json.bool true) ∧
    index_body.getPath ["mappings", "properties", "embedding", "type"] =
      some (Json.str "knn_vector") ∧
    index_body.getPath ["mappings", "properties", "embedding", "dimension"] =
      some (Json.num 1536) ∧
    index_body.getPath ["mappings", "properties", "embedding", "method", "name"] =
      some (Json.str "hnsw") ∧
    index_body.getPath ["mappings", "properties", "embedding", "method", "engine"] =
      some (Json.str "faiss") ∧
    index_body.getPath ["mappings", "properties", "content", "type"] =
      some (Json.str "text") ∧
    index_body.getPath ["mappings", "properties", "metadata", "type"] =
      some (Json.str "object") :=
  ⟨rfl, rfl, rfl, rfl, rfl, rfl, rfl, rfl⟩

/-- C4: with fewer than 2 user-supplied command-line arguments (full
`sys.argv` shorter than 3), the agent tester prints the usage message
and exits with status 1 with no agent invocation: `invoked = none`, so
no client was constructed and no network call attempted. -/
theorem agent_tester_usage_exit (argv : List String)
    (inv : Except String (List StreamItem)) (h : argv.length < 3) :
    mainArgv argv inv = ⟨[usageMsg], 1, none⟩ := by
  match argv with
  | [] => rfl
  | [_] => rfl
  | [_, _] => rfl
  | _ :: _ :: _ :: _ =>
      simp only [List.length_cons] at h
      omega

/-- C4 (witness): a run with only the program name. -/
theorem agent_tester_usage_exit_witness :
    (["test-agent.py"] : List String).length < 3 ∧
    mainArgv ["test-agent.py"] (Except.ok []) = ⟨[usageMsg], 1, none⟩ :=
  ⟨by decide, agent_tester_usage_exit ["test-agent.py"] (Except.ok []) (by decide)⟩

/-- C5: an exception raised by the invocation itself, or raised while
consuming the response stream after any block of ordinary events, makes
the tester print the error as its last write and exit with status 1. -/
theorem agent_tester_error_exit (a b q e : String) (pre : List AgentEvent)
    (post : List StreamItem) :
    ((test_agent a b q (Except.error e)).exitCode = 1 ∧
      (test_agent a b q (Except.error e)).output =
        ["Testing Agent...\n", "Question: " ++ q ++ "\n\n", "Error: " ++ e ++ "\n"]) ∧
    ((test_agent a b q
        (Except.ok (pre.map StreamItem.event ++ StreamItem.raise e :: post))).exitCode
          = 1 ∧
      ∃ ws, (test_agent a b q
        (Except.ok (pre.map StreamItem.event ++ StreamItem.raise e :: post))).output =
          ws ++ ["Error: " ++ e ++ "\n"]) := by
  have h := consume_raise_errorMsg e post pre "" []
  have h2 := test_agent_stream_error a b q _ e h
  refine ⟨⟨rfl, rfl⟩, h2.1,
    ⟨["Testing Agent...\n", "Question: " ++ q ++ "\n\n", "Response:\n"] ++
      (consumeStream (pre.map StreamItem.event ++ StreamItem.raise e :: post)
        "" []).fragWrites, ?_⟩⟩
  rw [h2.2, List.append_assoc]

/-- C6 (counterexample): the code removes every occurrence of the
scheme string, not only a leading prefix: on the endpoint
"https://a.https://b" it yields "a.b", while stripping the scheme
prefix from the front and leaving the remainder unchanged would yield
"a.https://b". -/
theorem host_strip_mismatch :
    hostOf "https://a.https://b" = "a.b" ∧
    stripScheme "https://a.https://b" = "a.https://b" ∧
    hostOf "https://a.https://b" ≠ stripScheme "https://a.https://b" :=
  ⟨by decide, by decide, by decide⟩

/-- C6 (amended): the provisioner removes every occurrence of the
scheme string from the endpoint; whenever the scheme occurs only as
the leading prefix (the remainder contains no further occurrence), the
bare host equals the endpoint with the scheme prefix stripped from the
front and the remainder left unchanged. -/
theorem host_strips_leading_scheme (e : String)
    (h1 : startsWithL "https://".toList e.toList = true)
    (h2 : occursIn "https://".toList (e.toList.drop 8) = false) :
    hostOf e = stripScheme e ∧ hostOf e = String.mk (e.toList.drop 8) := by
  have hlen : ("https://".toList).length = 8 := by decide
  have h := removeAll_leading "https://".toList (by decide) e.toList h1
    (by rw [hlen]; exact h2)
  rw [hlen] at h
  constructor
  · unfold hostOf stripScheme
    rw [if_pos h1, h]
  · unfold hostOf
    rw [h]

/-- C6 (amended, witness): a realistic endpoint with the scheme only
at the front. -/
theorem host_strips_leading_scheme_witness :
    (startsWithL "https://".toList "https://abc.eu-west-1.aoss.amazonaws.com".toList
        = true ∧
      occursIn "https://".toList
        ("https://abc.eu-west-1.aoss.amazonaws.com".toList.drop 8) = false) ∧
    (hostOf "https://abc.eu-west-1.aoss.amazonaws.com" =
        stripScheme "https://abc.eu-west-1.aoss.amazonaws.com" ∧
      hostOf "https://abc.eu-west-1.aoss.amazonaws.com" =
        String.mk ("https://abc.eu-west-1.aoss.amazonaws.com".toList.drop 8)) :=
  ⟨⟨by decide, by decide⟩,
    host_strips_leading_scheme "https://abc.eu-west-1.aoss.amazonaws.com"
      (by decide) (by decide)⟩

/-- C7: with exactly 2 user-supplied arguments the question passed to
the agent is the fixed fallback; a third argument is used as the
question unchanged. -/
theorem agent_tester_question_default (prog a b q : String) (rest : List String)
    (inv : Except String (List StreamItem)) :
    (mainArgv [prog, a, b] inv).invoked =
      some (invokeParamsOf a b "What is a derivative?") ∧
    (mainArgv (prog :: a :: b :: q :: rest) inv).invoked =
      some (invokeParamsOf a b q) ∧
    (invokeParamsOf a b q).inputText = q :=
  ⟨test_agent_invoked a b "What is a derivative?" inv,
    test_agent_invoked a b q inv, rfl⟩

/-- C8: every run of `test_agent` invokes the agent with the fixed
literal session identifier, which is independent of all three
command-line derived arguments. -/
theorem agent_tester_fixed_session (a b q a2 b2 q2 : String)
    (inv : Except String (List StreamItem)) :
    (invokeParamsOf a b q).sessionId = "test-session-123" ∧
    (invokeParamsOf a b q).sessionId = (invokeParamsOf a2 b2 q2).sessionId ∧
    (test_agent a b q inv).invoked = some (invokeParamsOf a b q) :=
  ⟨rfl, rfl, test_agent_invoked a b q inv⟩

/-- C9: an event without a `chunk` key, or with a chunk without a
`bytes` key, is skipped silently: consuming it leaves the accumulator,
the writes and the rest of the loop exactly as if the event were not
there, raising no error and producing no output. -/
theorem agent_tester_skips_payload_free_events (acc : String) (ws : List String)
    (rest : List StreamItem) :
    consumeStream (StreamItem.event ⟨none⟩ :: rest) acc ws =
      consumeStream rest acc ws ∧
    consumeStream (StreamItem.event ⟨some ⟨none⟩⟩ :: rest) acc ws =
      consumeStream rest acc ws :=
  ⟨rfl, rfl⟩

/-- C10: the endpoint extraction reads only the first element of the
collection-details list (the tail is irrelevant); it succeeds exactly
when the list is nonempty and its first element carries an endpoint;
and on an empty list the whole run fails with an uncaught exception
regardless of how the create call would have gone, outside the handled
already-exists error path. -/
theorem provisioner_head_indexing (d : CollectionDetail)
    (rest rest2 : List CollectionDetail) (outcomeAt : String → CreateOutcome) :
    provisionEndpointStep (d :: rest) = provisionEndpointStep (d :: rest2) ∧
    (∀ details : List CollectionDetail,
      (∃ v, provisionEndpointStep details = Except.ok v) ↔
        ∃ d0 rest0, details = d0 :: rest0 ∧ d0.collectionEndpoint.isSome = true) ∧
    provisionerRun [] outcomeAt = ⟨[], some "IndexError: list index out of range"⟩ := by
  refine ⟨rfl, ?_, rfl⟩
  intro details
  cases details with
  | nil =>
      constructor
      · rintro ⟨v, hv⟩
        simp [provisionEndpointStep] at hv
      · rintro ⟨d0, rest0, heq, _⟩
        exact absurd heq (by simp)
  | cons d0 rest0 =>
      cases h : d0.collectionEndpoint with
      | none =>
          constructor
          · rintro ⟨v, hv⟩
            simp [provisionEndpointStep, h] at hv
          · rintro ⟨d1, rest1, heq, hsome⟩
            rw [List.cons.injEq] at heq
            rw [← heq.1, h] at hsome
            simp at hsome
      | some e =>
          constructor
          · intro _
            exact ⟨d0, rest0, rfl, by simp [h]⟩
          · intro _
            exact ⟨e, by simp [provisionEndpointStep, h]⟩

end EbookReader
